import Mathlib

/-!
Verification of the authentication and authorization core of the
ai-smart-assistant-platform backend.

The embedding below translates the Python source into Lean:
  - `backend/auth/jwt_handler.py` : token issuance and verification,
  - `backend/auth/password.py`    : password strength validation,
  - `backend/dependencies.py`     : identity resolution and role guards,
  - `backend/routes/auth.py`      : the login handler,
  - `backend/config.py`           : the token-lifetime configuration.

Time is modelled in seconds as `Int`; the JWT wire format is modelled by an
inductive `JWT` that records a payload together with its signature.  A
signature is either an honest HMAC over a secret and a payload or a forged
string, so signature checking reduces to comparing the signing secret and
the signed payload.  The `jose` library raises only `JWTError` subclasses
(malformed token, bad signature, expired token); that error taxonomy is
modelled explicitly by `jwt_decode` so that the `try/except JWTError`
wrapper in `verify_token` can be stated faithfully.  Python truthiness on
dicts, optional strings and integers (`if not payload`, `if not
authorization`, `if not user_id`, `if expires_delta`) is translated by the
corresponding explicit emptiness / zero tests.
-/

namespace SmartAssistant

/-- backend/config.py: `ACCESS_TOKEN_EXPIRE_MINUTES: int = 1440`. -/
def ACCESS_TOKEN_EXPIRE_MINUTES : Int := 1440

/-- The JWT payload dict.  The code only ever reads the claims `user_id`,
`email`, `role` and `exp`; each is optional, mirroring `dict.get`. -/
structure Claims where
  user_id : Option Int
  email : Option String
  role : Option String
  exp : Option Int
deriving DecidableEq

/-- Python dict truthiness: a payload is falsy exactly when it has no
entries, i.e. all modelled claims are absent. -/
def Claims.isEmpty (c : Claims) : Bool :=
  c.user_id.isNone && c.email.isNone && c.role.isNone && c.exp.isNone

/-- A token signature: either an honest HMAC-SHA256 over a secret and the
serialized payload, or an arbitrary forged string. -/
inductive Sig where
  | hmac (secret : String) (payload : Claims)
  | forged (raw : String)
deriving DecidableEq

/-- A candidate token string: either a well-formed compact JWT
(header.payload.signature) carrying a payload and a signature, or a string
that does not parse as a JWT at all. -/
inductive JWT where
  | compact (payload : Claims) (sig : Sig)
  | garbage (raw : String)
deriving DecidableEq

/-- The `jose.JWTError` failure causes of `jwt.decode`. -/
inductive JWTError where
  | malformed
  | badSignature
  | expiredSignature
deriving DecidableEq

/-- `jose.jwt.decode(token, secret, algorithms=[HS256])`: reject a string
that is not a compact JWT, reject a signature that was not produced with
this secret over this payload, reject an `exp` claim strictly in the past,
and otherwise return the payload. -/
def jwt_decode (secret : String) (t : JWT) (now : Int) : Except JWTError Claims :=
  match t with
  | JWT.garbage _ => Except.error JWTError.malformed
  | JWT.compact p s =>
    if s = Sig.hmac secret p then
      match p.exp with
      | some e => if e < now then Except.error JWTError.expiredSignature else Except.ok p
      | none => Except.ok p
    else Except.error JWTError.badSignature

/-- backend/auth/jwt_handler.py `verify_token`: `jwt.decode` wrapped in
`try/except JWTError`, returning the payload on success and `None` on any
decoding failure. -/
def verify_token (secret : String) (t : JWT) (now : Int) : Option Claims :=
  match jwt_decode secret t now with
  | Except.ok p => some p
  | Except.error _ => none

/-- The payload built by `create_access_token`: copy the caller's data and
set `exp` to `now + expires_delta` when a truthy `expires_delta` was given
(`if expires_delta:` — `None` and `timedelta(0)` are both falsy), else to
`now + timedelta(minutes=ACCESS_TOKEN_EXPIRE_MINUTES)`. -/
def access_token_payload (data : Claims) (expires_delta : Option Int) (now : Int) : Claims :=
  let expire : Int :=
    match expires_delta with
    | some d => if d ≠ 0 then now + d else now + ACCESS_TOKEN_EXPIRE_MINUTES * 60
    | none => now + ACCESS_TOKEN_EXPIRE_MINUTES * 60
  { data with exp := some expire }

/-- backend/auth/jwt_handler.py `create_access_token`: encode and sign the
payload with the process-wide secret. -/
def create_access_token (secret : String) (data : Claims) (expires_delta : Option Int) (now : Int) : JWT :=
  JWT.compact (access_token_payload data expires_delta now)
    (Sig.hmac secret (access_token_payload data expires_delta now))

/-- The `exp` claim carried by a token (none for an unparseable string). -/
def token_exp (t : JWT) : Option Int :=
  match t with
  | JWT.compact p _ => p.exp
  | JWT.garbage _ => none

/-- backend/auth/jwt_handler.py `create_user_token`: fix the claim set to
exactly user_id, email and role, and use the default expiry. -/
def create_user_token (secret : String) (user_id : Int) (email : String) (role : String) (now : Int) : JWT :=
  create_access_token secret ⟨some user_id, some email, some role, none⟩ none now

/-- backend/auth/jwt_handler.py `extract_user_id`: verify, then `if
payload:` (dict truthiness) and `payload.get("user_id")`. -/
def extract_user_id (secret : String) (t : JWT) (now : Int) : Option Int :=
  match verify_token secret t now with
  | some payload => if payload.isEmpty then none else payload.user_id
  | none => none

/-- The character class of the special-character rule in
backend/auth/password.py: `[!@#$%^&*(),.?\":{}|<>]`. -/
def specialCharacters : List Char :=
  ['!', '@', '#', '$', '%', '^', '&', '*', '(', ')', ',', '.', '?',
   '"', ':', '\x7b', '\x7d', '|', '<', '>']

/-- backend/auth/password.py `validate_password_strength`: five checks in
fixed order, returning the first failing rule's message, or `(True, "")`
when all pass.  `re.search("[A-Z]")`, `[a-z]` and `\d` are the ASCII
character-class searches `Char.isUpper`, `Char.isLower`, `Char.isDigit`. -/
def validate_password_strength (password : String) : Bool × String :=
  if password.length < 8 then
    (false, "Password must be at least 8 characters long")
  else if !(password.data.any Char.isUpper) then
    (false, "Password must contain at least one uppercase letter")
  else if !(password.data.any Char.isLower) then
    (false, "Password must contain at least one lowercase letter")
  else if !(password.data.any Char.isDigit) then
    (false, "Password must contain at least one number")
  else if !(password.data.any (fun c => specialCharacters.contains c)) then
    (false, "Password must contain at least one special character")
  else
    (true, "")

/-- Spec-side notion of a special character: any non-alphanumeric
character excluding whitespace (used to compare the spec's definition with
the code's fixed character class). -/
def hasSpecialPerSpec (p : String) : Bool :=
  p.data.any (fun c => !c.isAlphanum && !c.isWhitespace)

/-- Spec-side rule list of the strength validator, in the spec's fixed
order; each entry is the passing predicate paired with its message. -/
def strengthRules : List ((String → Bool) × String) :=
  [ (fun p => !(decide (p.length < 8)), "Password must be at least 8 characters long"),
    (fun p => p.data.any Char.isUpper, "Password must contain at least one uppercase letter"),
    (fun p => p.data.any Char.isLower, "Password must contain at least one lowercase letter"),
    (fun p => p.data.any Char.isDigit, "Password must contain at least one number"),
    (fun p => p.data.any (fun c => specialCharacters.contains c),
      "Password must contain at least one special character") ]

/-- The first failing rule's message, per the spec's description. -/
def firstFailingMessage (p : String) : Option String :=
  (strengthRules.find? (fun r => !(r.1 p))).map (fun r => r.2)

/-- backend/models/user.py `UserRole`. -/
inductive UserRole where
  | GUEST
  | USER
  | ADMIN
deriving DecidableEq

/-- backend/models/user.py: the `.value` of each `UserRole` member. -/
def UserRole.value : UserRole → String
  | UserRole.GUEST => "guest"
  | UserRole.USER => "user"
  | UserRole.ADMIN => "admin"

/-- backend/models/user.py `User`: the columns the auth core reads. -/
structure UserRec where
  id : Int
  name : String
  email : String
  password_hash : String
  role : UserRole
deriving DecidableEq

/-- `db.query(User).filter(User.id == user_id).first()`. -/
def find_user_by_id (db : List UserRec) (i : Int) : Option UserRec :=
  db.find? (fun u => u.id = i)

/-- `db.query(User).filter(User.email == email).first()`. -/
def find_user_by_email (db : List UserRec) (email : String) : Option UserRec :=
  db.find? (fun u => u.email = email)

/-- A raised `HTTPException`: status code and detail. -/
structure HTTPError where
  status_code : Nat
  detail : String
deriving DecidableEq

/-- backend/dependencies.py `get_current_user`.  The route framework hands
over the bearer token string; `tokenOf` is the wire decoding of a token
string into the JWT model.  Steps: verify the token (`if not payload` is
dict truthiness, so an empty payload is also a 401), read the `user_id`
claim (`if not user_id` is integer truthiness, so both an absent claim and
the value 0 are a 401), then look the user up by primary key. -/
def get_current_user (tokenOf : String → JWT) (secret : String) (db : List UserRec)
    (token : String) (now : Int) : Except HTTPError UserRec :=
  match verify_token secret (tokenOf token) now with
  | none => Except.error ⟨401, "Invalid or expired token"⟩
  | some payload =>
    if payload.isEmpty then Except.error ⟨401, "Invalid or expired token"⟩
    else
      match payload.user_id with
      | none => Except.error ⟨401, "Invalid token payload"⟩
      | some uid =>
        if uid = 0 then Except.error ⟨401, "Invalid token payload"⟩
        else
          match find_user_by_id db uid with
          | none => Except.error ⟨401, "User not found"⟩
          | some u => Except.ok u

/-- The admin check of backend/dependencies.py `get_current_admin`,
applied to an already-resolved user. -/
def get_current_admin_check (current_user : UserRec) : Except HTTPError UserRec :=
  if current_user.role ≠ UserRole.ADMIN then
    Except.error ⟨403, "Admin access required"⟩
  else Except.ok current_user

/-- backend/dependencies.py `get_current_admin`: dependency chaining of
`get_current_user` followed by the admin check. -/
def get_current_admin (tokenOf : String → JWT) (secret : String) (db : List UserRec)
    (token : String) (now : Int) : Except HTTPError UserRec :=
  match get_current_user tokenOf secret db token now with
  | Except.error e => Except.error e
  | Except.ok u => get_current_admin_check u

/-- `authorization.split(" ")[1]`, reached only after the
`startswith("Bearer ")` guard, which guarantees index 1 exists. -/
def bearer_token (authorization : String) : String :=
  (authorization.splitOn " ").getD 1 ""

/-- backend/dependencies.py `get_optional_user`: `if not authorization`
(absent or empty header), the `"Bearer "` shape check, token extraction,
verification (`if not payload` dict truthiness), `user_id` truthiness, and
the user lookup whose miss is returned as `None`. -/
def get_optional_user (tokenOf : String → JWT) (secret : String) (db : List UserRec)
    (authorization : Option String) (now : Int) : Option UserRec :=
  match authorization with
  | none => none
  | some auth =>
    if auth = "" then none
    else if !(auth.startsWith "Bearer ") then none
    else
      match verify_token secret (tokenOf (bearer_token auth)) now with
      | none => none
      | some payload =>
        if payload.isEmpty then none
        else
          match payload.user_id with
          | none => none
          | some uid =>
            if uid = 0 then none
            else find_user_by_id db uid

/-- The 403 detail of `require_role`, listing the allowed roles.  The
Python f-string renders the list of role values. -/
def roleDeniedDetail (allowed : List UserRole) : String :=
  "Access denied. Required roles: " ++ String.intercalate ", " (allowed.map UserRole.value)

/-- The closure returned by backend/dependencies.py `require_role`,
applied to an already-resolved user: `if current_user.role not in
allowed_roles` raise 403, else pass the user through. -/
def role_checker (allowed : List UserRole) (current_user : UserRec) : Except HTTPError UserRec :=
  if current_user.role ∈ allowed then Except.ok current_user
  else Except.error ⟨403, roleDeniedDetail allowed⟩

/-- backend/dependencies.py `require_role(*allowed_roles)`: dependency
chaining of `get_current_user` followed by the role check. -/
def require_role (allowed : List UserRole) (tokenOf : String → JWT) (secret : String)
    (db : List UserRec) (token : String) (now : Int) : Except HTTPError UserRec :=
  match get_current_user tokenOf secret db token now with
  | Except.error e => Except.error e
  | Except.ok u => role_checker allowed u

/-- The externally observable outcome of a guard: the identity passed
through, a 403-class refusal, or a 401-class refusal. -/
inductive Outcome where
  | authorized (u : UserRec)
  | forbiddenOutcome
  | unauthenticatedOutcome
deriving DecidableEq

/-- Project a guard result to its outcome kind. -/
def outcome (r : Except HTTPError UserRec) : Outcome :=
  match r with
  | Except.ok u => Outcome.authorized u
  | Except.error e =>
    if e.status_code = 403 then Outcome.forbiddenOutcome else Outcome.unauthenticatedOutcome

/-- backend/routes/auth.py: the body of a successful login or
registration response. -/
structure TokenResponse where
  access_token : JWT
  token_type : String
  user : UserRec
deriving DecidableEq

/-- backend/routes/auth.py `login`: find the user by email (401 with a
non-revealing message if absent), verify the password against the stored
hash (same 401 on mismatch), else issue a fresh user token.  `vp` is the
bcrypt `verify_password` collaborator. -/
def login (vp : String → String → Bool) (secret : String) (db : List UserRec)
    (email password : String) (now : Int) : Except HTTPError TokenResponse :=
  match find_user_by_email db email with
  | none => Except.error ⟨401, "Incorrect email or password"⟩
  | some user =>
    if !(vp password user.password_hash) then
      Except.error ⟨401, "Incorrect email or password"⟩
    else
      Except.ok ⟨create_user_token secret user.id user.email user.role.value now, "bearer", user⟩

/-- C1: token verification is total over the token domain: for every
candidate token and time, either the decode fails with one of the
`JWTError` causes (malformed structure, bad signature, expired) and
`verify_token` returns the distinguished `none`, or the decode succeeds
and `verify_token` returns the decoded claims; no failure escapes to the
caller. -/
theorem verify_token_total (secret : String) (t : JWT) (now : Int) :
    (∃ e, jwt_decode secret t now = Except.error e ∧ verify_token secret t now = none) ∨
    (∃ p, jwt_decode secret t now = Except.ok p ∧ verify_token secret t now = some p) := by
  cases h : jwt_decode secret t now with
  | error e => exact Or.inl ⟨e, rfl, by simp [verify_token, h]⟩
  | ok p => exact Or.inr ⟨p, rfl, by simp [verify_token, h]⟩

/-- C2 counterexample: "Abcdef1-" is 8 characters long with an uppercase
letter, a lowercase letter and a digit, and it contains a special
character in the spec's sense (the hyphen is non-alphanumeric and not
whitespace), yet the validator rejects it: the code tests membership in a
fixed character class that does not contain the hyphen. -/
theorem validate_special_class_counterexample :
    8 ≤ ("Abcdef1-" : String).length ∧
    ("Abcdef1-" : String).data.any Char.isUpper = true ∧
    ("Abcdef1-" : String).data.any Char.isLower = true ∧
    ("Abcdef1-" : String).data.any Char.isDigit = true ∧
    hasSpecialPerSpec "Abcdef1-" = true ∧
    (validate_password_strength "Abcdef1-").1 = false := by
  refine ⟨by decide, by decide, by decide, by decide, by decide, by decide⟩

/-- C2 (amended): for every password of length at least 8 containing an
uppercase letter, a lowercase letter and a digit, the validator accepts it
iff it contains at least one character of the fixed class
`specialCharacters` (not: any non-alphanumeric non-whitespace
character). -/
theorem validate_special_class (p : String)
    (hlen : ¬ p.length < 8)
    (hup : p.data.any Char.isUpper = true)
    (hlo : p.data.any Char.isLower = true)
    (hdi : p.data.any Char.isDigit = true) :
    (validate_password_strength p).1 = true ↔
      p.data.any (fun c => specialCharacters.contains c) = true := by
  unfold validate_password_strength
  rw [if_neg hlen, hup, hlo, hdi]
  cases h5 : p.data.any (fun c => specialCharacters.contains c) <;> simp

/-- C2 witness: the amended equivalence applied at the concrete password
"Abcdef1!". -/
theorem validate_special_class_witness :
    (validate_password_strength "Abcdef1!").1 = true ↔
      ("Abcdef1!" : String).data.any (fun c => specialCharacters.contains c) = true :=
  validate_special_class "Abcdef1!" (by decide) (by decide) (by decide) (by decide)

/-- C6 counterexample: supplying the explicit custom duration 0 does not
give an exp of issuance time plus 0: `timedelta(0)` is falsy in Python,
so `create_access_token` falls back to the default 1440 minutes. -/
theorem create_access_token_zero_delta_counterexample :
    token_exp (create_access_token "secret" ⟨none, none, none, none⟩ (some 0) 0) = some 86400 ∧
    token_exp (create_access_token "secret" ⟨none, none, none, none⟩ (some 0) 0) ≠ some 0 := by
  refine ⟨by decide, by decide⟩

/-- C6 (amended): with no custom duration the exp claim equals issuance
time plus the configured default of 1440 minutes; with a nonzero custom
duration d it equals issuance time plus d (a zero custom duration falls
back to the default because `timedelta(0)` is falsy). -/
theorem create_access_token_exp (secret : String) (data : Claims) (now : Int) :
    token_exp (create_access_token secret data none now)
        = some (now + ACCESS_TOKEN_EXPIRE_MINUTES * 60) ∧
    ∀ d : Int, d ≠ 0 →
      token_exp (create_access_token secret data (some d) now) = some (now + d) := by
  refine ⟨rfl, ?_⟩
  intro d hd
  simp [create_access_token, access_token_payload, token_exp, hd]

/-- C6 witness: the amended expiry equations at concrete inputs. -/
theorem create_access_token_exp_witness :
    token_exp (create_access_token "s" ⟨none, none, none, none⟩ none 5)
        = some (5 + ACCESS_TOKEN_EXPIRE_MINUTES * 60) ∧
    token_exp (create_access_token "s" ⟨none, none, none, none⟩ (some 7) 5) = some (5 + 7) :=
  ⟨(create_access_token_exp "s" ⟨none, none, none, none⟩ 5).1,
   (create_access_token_exp "s" ⟨none, none, none, none⟩ 5).2 7 (by decide)⟩

/-- C7 counterexample: on input "weak" the validator does not return the
pair (false, "at least 8 characters"): the message it returns is the full
sentence "Password must be at least 8 characters long". -/
theorem validate_weak_message_counterexample :
    validate_password_strength "weak" ≠ (false, "at least 8 characters") := by
  decide

/-- C7 (amended): the validator applies its rules in the fixed order
length, uppercase, lowercase, digit, special, returning the first failing
rule's full message, and returns (true, "") exactly when every rule
passes; "weak" yields the full length message and "StrongP@ss123" is
accepted. -/
theorem validate_password_strength_first_fail :
    (∀ p, validate_password_strength p =
      match firstFailingMessage p with
      | some m => (false, m)
      | none => (true, "")) ∧
    validate_password_strength "weak" = (false, "Password must be at least 8 characters long") ∧
    validate_password_strength "StrongP@ss123" = (true, "") := by
  refine ⟨?_, by decide, by decide⟩
  intro p
  unfold validate_password_strength firstFailingMessage strengthRules
  by_cases h1 : p.length < 8
  · rw [if_pos h1]
    simp only [List.find?_cons, Bool.not_not]
    rw [decide_eq_true h1]
    simp
  · rw [if_neg h1]
    simp only [List.find?_cons, Bool.not_not, List.find?_nil]
    rw [decide_eq_false h1]
    cases h2 : p.data.any Char.isUpper <;>
      cases h3 : p.data.any Char.isLower <;>
        cases h4 : p.data.any Char.isDigit <;>
          cases h5 : p.data.any (fun c => specialCharacters.contains c) <;>
            simp

/-- A concrete USER-role identity used by witnesses. -/
def demoUser : UserRec := ⟨1, "Alice", "a@b.com", "hash1", UserRole.USER⟩

/-- A concrete ADMIN-role identity used by witnesses. -/
def demoAdmin : UserRec := ⟨2, "Bob", "admin@b.com", "hash2", UserRole.ADMIN⟩

/-- C3: for every authenticated identity, the role guard with allowed set
containing exactly ADMIN refuses a USER-role identity with a 403 and
passes an ADMIN-role identity through; membership in the allowed set is
exact-match (the check succeeds exactly when the role is a member, with
no hierarchy), and the full require_role chain agrees with the checker on
every resolved identity. -/
theorem require_role_admin_exact (u : UserRec) :
    (u.role = UserRole.USER →
      role_checker [UserRole.ADMIN] u = Except.error ⟨403, roleDeniedDetail [UserRole.ADMIN]⟩) ∧
    (u.role = UserRole.ADMIN → role_checker [UserRole.ADMIN] u = Except.ok u) ∧
    (∀ allowed : List UserRole, role_checker allowed u = Except.ok u ↔ u.role ∈ allowed) ∧
    (∀ tokenOf secret db token now,
      get_current_user tokenOf secret db token now = Except.ok u →
      require_role [UserRole.ADMIN] tokenOf secret db token now = role_checker [UserRole.ADMIN] u) := by
  refine ⟨?_, ?_, ?_, ?_⟩
  · intro h; simp [role_checker, h]
  · intro h; simp [role_checker, h]
  · intro allowed
    by_cases h : u.role ∈ allowed <;> simp [role_checker, h]
  · intro tokenOf secret db token now h
    simp [require_role, h]

/-- C3 witness: the admin role guard applied at a concrete USER-role
identity and at a concrete ADMIN-role identity. -/
theorem require_role_admin_exact_witness :
    role_checker [UserRole.ADMIN] demoUser
        = Except.error ⟨403, roleDeniedDetail [UserRole.ADMIN]⟩ ∧
    role_checker [UserRole.ADMIN] demoAdmin = Except.ok demoAdmin :=
  ⟨(require_role_admin_exact demoUser).1 rfl, (require_role_admin_exact demoAdmin).2.1 rfl⟩

/-- C9: the admin guard is sugar for the role guard: for every request,
the get_current_admin chain produces the same outcome (identity passed
through, Forbidden, or Unauthenticated) as the require_role chain with
allowed set containing exactly ADMIN. -/
theorem get_current_admin_matches_require_role (tokenOf : String → JWT) (secret : String)
    (db : List UserRec) (token : String) (now : Int) :
    outcome (get_current_admin tokenOf secret db token now)
      = outcome (require_role [UserRole.ADMIN] tokenOf secret db token now) := by
  unfold get_current_admin require_role
  cases h : get_current_user tokenOf secret db token now with
  | error e => rfl
  | ok u => cases hr : u.role <;> simp [get_current_admin_check, role_checker, outcome, hr]

/-- C4: optional resolution never signals an authorization error: it
returns none when there is no Authorization header, when the header does
not have the "Bearer token" shape, when the extracted token fails
verification, when the verified payload has no user_id claim, and when no
user record matches the claim. -/
theorem get_optional_user_never_errors (tokenOf : String → JWT) (secret : String)
    (db : List UserRec) (auth : String) (now : Int) :
    get_optional_user tokenOf secret db none now = none ∧
    (¬ auth.startsWith "Bearer " = true →
      get_optional_user tokenOf secret db (some auth) now = none) ∧
    (verify_token secret (tokenOf (bearer_token auth)) now = none →
      get_optional_user tokenOf secret db (some auth) now = none) ∧
    (∀ p, verify_token secret (tokenOf (bearer_token auth)) now = some p →
      p.user_id = none →
      get_optional_user tokenOf secret db (some auth) now = none) ∧
    (∀ p uid, verify_token secret (tokenOf (bearer_token auth)) now = some p →
      p.user_id = some uid → find_user_by_id db uid = none →
      get_optional_user tokenOf secret db (some auth) now = none) := by
  refine ⟨rfl, ?_, ?_, ?_, ?_⟩
  · intro h
    unfold get_optional_user
    by_cases he : auth = "" <;> simp [he, h]
  · intro hv
    unfold get_optional_user
    by_cases he : auth = ""
    · simp [he]
    · by_cases hb : auth.startsWith "Bearer " = true <;> simp [he, hb, hv]
  · intro p hv hp
    unfold get_optional_user
    by_cases he : auth = ""
    · simp [he]
    · by_cases hb : auth.startsWith "Bearer " = true <;> simp [he, hb, hv, hp]
  · intro p uid hv hp hfind
    unfold get_optional_user
    by_cases he : auth = ""
    · simp [he]
    · by_cases hb : auth.startsWith "Bearer " = true <;>
        simp [he, hb, hv, hp, hfind, Claims.isEmpty]

/-- C4 witness: a request with no header, and a request whose extracted
token fails verification (it is garbage), both resolve to no identity. -/
theorem get_optional_user_never_errors_witness :
    get_optional_user (fun _ => JWT.garbage "") "s" [] none 0 = none ∧
    get_optional_user (fun _ => JWT.garbage "") "s" [] (some "Bearer abc") 0 = none :=
  ⟨(get_optional_user_never_errors (fun _ => JWT.garbage "") "s" [] "Bearer abc" 0).1,
   (get_optional_user_never_errors (fun _ => JWT.garbage "") "s" [] "Bearer abc" 0).2.2.1 rfl⟩

/-- C10: for every validly signed, unexpired token whose verified payload
carries the present-but-falsy user_id claim 0, the required-auth resolver
signals 401 with detail "Invalid token payload" — the same error as for
an absent user_id claim — the optional resolver returns none, and the
result does not depend on the user store (no lookup is attempted). -/
theorem zero_user_id_claim (tokenOf : String → JWT) (secret : String)
    (db db2 : List UserRec) (token auth : String) (now : Int) (p q : Claims)
    (hv : verify_token secret (tokenOf token) now = some p)
    (hp : p.user_id = some 0)
    (hq : verify_token secret (tokenOf (bearer_token auth)) now = some q)
    (hq0 : q.user_id = some 0) :
    get_current_user tokenOf secret db token now = Except.error ⟨401, "Invalid token payload"⟩ ∧
    get_optional_user tokenOf secret db (some auth) now = none ∧
    get_current_user tokenOf secret db token now = get_current_user tokenOf secret db2 token now := by
  have hcur : ∀ d : List UserRec, get_current_user tokenOf secret d token now
      = Except.error ⟨401, "Invalid token payload"⟩ := by
    intro d
    unfold get_current_user
    rw [hv]
    simp [Claims.isEmpty, hp]
  refine ⟨hcur db, ?_, (hcur db).trans (hcur db2).symm⟩
  unfold get_optional_user
  by_cases he : auth = ""
  · simp [he]
  · by_cases hb : auth.startsWith "Bearer " = true <;>
      simp [he, hb, hq, hq0, Claims.isEmpty]

/-- A validly signed payload carrying the falsy user_id claim 0. -/
def zeroClaims : Claims := ⟨some 0, some "z@b.com", some "user", some 10⟩

/-- A token honestly signed over `zeroClaims` with the secret "s". -/
def zeroToken : JWT := JWT.compact zeroClaims (Sig.hmac "s" zeroClaims)

/-- C10 witness: a concrete signed, unexpired token with user_id 0 is
refused with "Invalid token payload" on the required path and resolves to
no identity on the optional path, over an empty user store. -/
theorem zero_user_id_claim_witness :
    get_current_user (fun _ => zeroToken) "s" [] "tok" 0
        = Except.error ⟨401, "Invalid token payload"⟩ ∧
    get_optional_user (fun _ => zeroToken) "s" [] (some "Bearer tok") 0 = none :=
  ⟨(zero_user_id_claim (fun _ => zeroToken) "s" [] [] "tok" "Bearer tok" 0 zeroClaims zeroClaims
      (by decide) rfl (by decide) rfl).1,
   (zero_user_id_claim (fun _ => zeroToken) "s" [] [] "tok" "Bearer tok" 0 zeroClaims zeroClaims
      (by decide) rfl (by decide) rfl).2.1⟩

/-- Decoding a compact token honestly signed with the verifying secret
reduces to the expiry check. -/
theorem jwt_decode_compact_hmac (secret : String) (p : Claims) (now : Int) :
    jwt_decode secret (JWT.compact p (Sig.hmac secret p)) now =
      match p.exp with
      | some e => if e < now then Except.error JWTError.expiredSignature else Except.ok p
      | none => Except.ok p := by
  simp [jwt_decode]

/-- C5: the issue/verify round trip preserves claims: for every claim set
and positive custom duration, verifying the freshly issued token at
issuance time succeeds with a payload carrying the original user_id; and
issuing a user token always lets extract_user_id recover the user id. -/
theorem issue_verify_round_trip (secret : String) (c : Claims) (d now : Int) (hd : 0 < d) :
    (∃ p, verify_token secret (create_access_token secret c (some d) now) now = some p ∧
      p.user_id = c.user_id) ∧
    ∀ (uid : Int) (email role : String),
      extract_user_id secret (create_user_token secret uid email role now) now = some uid := by
  constructor
  · have hne : d ≠ 0 := by omega
    have hexp : ¬ (now + d < now) := by omega
    refine ⟨access_token_payload c (some d) now, ?_, rfl⟩
    unfold verify_token create_access_token
    rw [jwt_decode_compact_hmac]
    have hx : (access_token_payload c (some d) now).exp = some (now + d) := by
      simp [access_token_payload, hne]
    rw [hx]
    simp [hexp]
  · intro uid email role
    have hexp : ¬ (now + ACCESS_TOKEN_EXPIRE_MINUTES * 60 < now) := by
      unfold ACCESS_TOKEN_EXPIRE_MINUTES
      omega
    unfold extract_user_id verify_token create_user_token create_access_token
    rw [jwt_decode_compact_hmac]
    have hx : (access_token_payload ⟨some uid, some email, some role, none⟩ none now).exp
        = some (now + ACCESS_TOKEN_EXPIRE_MINUTES * 60) := rfl
    rw [hx]
    simp [hexp, access_token_payload, Claims.isEmpty]

/-- C5 witness: the spec's end-to-end example: issue a user token for
user id 123 and extract 123, via the round-trip theorem at duration 1. -/
theorem issue_verify_round_trip_witness :
    extract_user_id "s" (create_user_token "s" 123 "a@b.com" "user" 0) 0 = some 123 :=
  (issue_verify_round_trip "s" ⟨none, none, none, none⟩ 1 0 (by decide)).2 123 "a@b.com" "user"

/-- C8: login failure is indistinguishable across causes: when the email
matches no user record, and when the email matches a record whose stored
hash the submitted password fails to verify against, the handler produces
the identical error value: status 401 with detail "Incorrect email or
password". -/
theorem login_failure_indistinguishable (vp : String → String → Bool) (secret : String)
    (db : List UserRec) (e1 p1 e2 p2 : String) (u : UserRec) (now now2 : Int)
    (h1 : find_user_by_email db e1 = none)
    (h2 : find_user_by_email db e2 = some u)
    (h3 : vp p2 u.password_hash = false) :
    login vp secret db e1 p1 now = Except.error ⟨401, "Incorrect email or password"⟩ ∧
    login vp secret db e2 p2 now2 = Except.error ⟨401, "Incorrect email or password"⟩ := by
  constructor
  · unfold login
    rw [h1]
  · unfold login
    rw [h2]
    simp [h3]

/-- A one-user store used by the login witness. -/
def demoDb : List UserRec := [demoUser]

/-- C8 witness: with a password verifier that rejects everything, the
login error for an unknown email and for a known email with a wrong
password are the identical 401 value. -/
theorem login_failure_indistinguishable_witness :
    login (fun _ _ => false) "s" demoDb "missing@b.com" "pw" 0
        = Except.error ⟨401, "Incorrect email or password"⟩ ∧
    login (fun _ _ => false) "s" demoDb "a@b.com" "pw" 0
        = Except.error ⟨401, "Incorrect email or password"⟩ :=
  login_failure_indistinguishable (fun _ _ => false) "s" demoDb "missing@b.com" "pw" "a@b.com"
    "pw" demoUser 0 0 (by decide) (by decide) rfl

end SmartAssistant
